import Mathlib

/-!
# vmmlib `Frustum<T>`: embedding and verification

A shallow embedding of `include/Frustum.h`, in two readings of the scalar
type `T` of the template.

* `Frustum`, `Matrix4`: `T` is the rationals `ℚ`, i.e. the operations are read
  in exact arithmetic; the float literal `0.5f` is the rational `1/2`.
  Division by zero has no exact-arithmetic meaning: statements that need a
  divisor to be non-zero carry that as a hypothesis.
* `Frustumf`, `Matrix4f`: `T` is `float` (the typedef `Frustumf` of the
  header), with the IEEE 754 binary32 data and operations of `Flt`: NaN,
  signed infinities and zeros, round to nearest (ties to even), overflow to
  infinity, gradual underflow.  Every operation is evaluated in binary32
  (no excess precision).
-/

namespace vmml

/-- The six scalar members of `Frustum<T>` (the anonymous struct of the union),
in declaration order. -/
structure Frustum where
  left : ℚ
  right : ℚ
  top : ℚ
  bottom : ℚ
  near : ℚ
  far : ℚ
  deriving DecidableEq

/-- Modelled from the spec: the `Matrix4<T>` value type of the missing header
`Matrix4.h`, "a 4x4 matrix value type with named element accessors addressable
as `m<row><col>` (row-major, 0-indexed)". -/
structure Matrix4 where
  m00 : ℚ
  m01 : ℚ
  m02 : ℚ
  m03 : ℚ
  m10 : ℚ
  m11 : ℚ
  m12 : ℚ
  m13 : ℚ
  m20 : ℚ
  m21 : ℚ
  m22 : ℚ
  m23 : ℚ
  m30 : ℚ
  m31 : ℚ
  m32 : ℚ
  m33 : ℚ
  deriving DecidableEq

/-- Modelled from the spec: the static constant `Matrix4<T>::IDENTITY` of the
missing header `Matrix4.h`, the identity matrix (1 on the diagonal, 0
elsewhere). -/
def Matrix4.IDENTITY : Matrix4 :=
  { m00 := 1, m01 := 0, m02 := 0, m03 := 0
    m10 := 0, m11 := 1, m12 := 0, m13 := 0
    m20 := 0, m21 := 0, m22 := 1, m23 := 0
    m30 := 0, m31 := 0, m32 := 0, m33 := 1 }

/-- The entries of a `Matrix4` as a Mathlib matrix, entry `m<row><col>` at
row `row` and column `col`. -/
def Matrix4.toMatrix (m : Matrix4) : Matrix (Fin 4) (Fin 4) ℚ :=
  !![m.m00, m.m01, m.m02, m.m03;
     m.m10, m.m11, m.m12, m.m13;
     m.m20, m.m21, m.m22, m.m23;
     m.m30, m.m31, m.m32, m.m33]

/-- `Frustum<T>::Frustum( _left, _right, _top, _bottom, _near, _far )`: the
member initialisers assign positionally. -/
def Frustum.new (_left _right _top _bottom _near _far : ℚ) : Frustum :=
  { left := _left, right := _right, top := _top, bottom := _bottom,
    near := _near, far := _far }

/-- `Frustum<T>::adjustNear( _near )`. -/
def Frustum.adjustNear (f : Frustum) (_near : ℚ) : Frustum :=
  if _near = f.near then f
  else
    let ratio_2 : ℚ := (1 / 2) * _near / f.near
    let hMiddle : ℚ := (f.right + f.left) * (1 / 2)
    let width_2 : ℚ := (f.right - f.left) * ratio_2
    let right' : ℚ := hMiddle + width_2
    let left' : ℚ := hMiddle - width_2
    let vMiddle : ℚ := (f.top + f.bottom) * (1 / 2)
    let height_2 : ℚ := (f.top - f.bottom) * ratio_2
    let top' : ℚ := vMiddle + height_2
    let bottom' : ℚ := vMiddle - height_2
    { left := left', right := right', top := top', bottom := bottom',
      near := _near, far := f.far }

/-- `Frustum<T>::computeMatrix()`: start from the identity and overwrite eight
entries. -/
def Frustum.computeMatrix (f : Frustum) : Matrix4 :=
  let matrix : Matrix4 := Matrix4.IDENTITY
  let matrix := { matrix with m00 := 2 * f.near / (f.right - f.left) }
  let matrix := { matrix with m02 := (f.right + f.left) / (f.right - f.left) }
  let matrix := { matrix with m11 := 2 * f.near / (f.top - f.bottom) }
  let matrix := { matrix with m12 := (f.top + f.bottom) / (f.top - f.bottom) }
  let matrix := { matrix with m22 := (f.far + f.near) / (f.far - f.near) }
  let matrix := { matrix with m23 := 2 * f.far * f.near / (f.far - f.near) }
  let matrix := { matrix with m32 := -1 }
  let matrix := { matrix with m33 := 0 }
  matrix

/-- The data-model invariants of a frustum: `left < right`, `bottom < top`,
`0 < near < far`. -/
def Frustum.Valid (f : Frustum) : Prop :=
  f.left < f.right ∧ f.bottom < f.top ∧ 0 < f.near ∧ f.near < f.far

instance (f : Frustum) : Decidable f.Valid := by
  unfold Frustum.Valid; infer_instance

/-- The array member `T data[6]` of the union: the storage of the six named
members read by position, in their declaration order. -/
def Frustum.data (f : Frustum) : Fin 6 → ℚ :=
  ![f.left, f.right, f.top, f.bottom, f.near, f.far]

/-- `Frustum< T >::DEFAULT( -1.0, 1.0, -1.0, 1.0, 0.1, 100.0 )`. -/
def Frustum.DEFAULT : Frustum := Frustum.new (-1.0) 1.0 (-1.0) 1.0 0.1 100.0

/-- The product of a `Matrix4` with a column vector, `(M v) i = Σ j, m<i><j> * v j`. -/
def Matrix4.mulVec (m : Matrix4) (v : Fin 4 → ℚ) : Fin 4 → ℚ := m.toMatrix.mulVec v

/-- Clip-space image `computeMatrix * (x, y, z, 1)` of a view-space point;
components 0, 1, 2, 3 are `clip.x`, `clip.y`, `clip.z`, `clip.w`. -/
def Frustum.clip (f : Frustum) (x y z : ℚ) : Fin 4 → ℚ :=
  f.computeMatrix.mulVec ![x, y, z, 1]

/-! ## IEEE 754 binary32 -/

/-- Floating-point data: NaN, the two infinities (`neg` is the sign bit),
negative zero, and the finite values, `fin 0` being positive zero. -/
inductive Flt where
  | nan
  | inf (neg : Bool)
  | nzero
  | fin (q : ℚ)
  deriving DecidableEq

/-- The power `2 ^ k` for an integer exponent. -/
def pow2 (k : ℤ) : ℚ :=
  if 0 ≤ k then ((2 ^ k.toNat : ℕ) : ℚ) else 1 / ((2 ^ (-k).toNat : ℕ) : ℚ)

/-- Number of halvings that bring `n` below 2, at most `fuel` of them. -/
def log2Aux : ℕ → ℕ → ℕ
  | 0, _ => 0
  | fuel + 1, n => if n < 2 then 0 else log2Aux fuel (n / 2) + 1

/-- The integer part of the binary logarithm of `n` (0 for `n = 0`). -/
def log2 (n : ℕ) : ℕ := log2Aux n n

/-- The integer part of the binary logarithm of a positive rational. -/
def ilog2 (a : ℚ) : ℤ :=
  let k : ℤ := (log2 a.num.natAbs : ℤ) - (log2 a.den : ℤ)
  if pow2 k ≤ a then k else k - 1

/-- The nearest integer to a non-negative rational, ties to the even one. -/
def roundHalfEven (a : ℚ) : ℤ :=
  let fl : ℤ := a.floor
  let r : ℚ := a - fl
  if r < 1 / 2 then fl
  else if 1 / 2 < r then fl + 1
  else if fl % 2 = 0 then fl else fl + 1

/-- A zero with the given sign bit. -/
def Flt.zero (neg : Bool) : Flt := if neg then Flt.nzero else Flt.fin 0

/-- Rounding of an exact result to binary32: 24 significant bits, least
exponent `-126` (below it the spacing stays `2 ^ (-149)`), round to nearest
with ties to even, `±inf` from `2 ^ 128` on, and a zero that keeps the sign. -/
def Flt.round32 (q : ℚ) : Flt :=
  if q = 0 then Flt.fin 0
  else
    let a : ℚ := |q|
    let e : ℤ := max (ilog2 a) (-126)
    let ulp : ℚ := pow2 (e - 23)
    let r : ℚ := (roundHalfEven (a / ulp) : ℚ) * ulp
    if pow2 128 ≤ r then Flt.inf (decide (q < 0))
    else if r = 0 then Flt.zero (decide (q < 0))
    else Flt.fin (if q < 0 then -r else r)

/-- The value of a finite datum; both zeros have value 0. -/
def Flt.toRat : Flt → ℚ
  | Flt.fin q => q
  | _ => 0

/-- The sign bit. -/
def Flt.isNeg : Flt → Bool
  | Flt.nan => false
  | Flt.inf neg => neg
  | Flt.nzero => true
  | Flt.fin q => decide (q < 0)

/-- Whether the datum is one of the two zeros. -/
def Flt.isZero : Flt → Bool
  | Flt.nzero => true
  | Flt.fin q => decide (q = 0)
  | _ => false

/-- Whether the datum is finite: neither NaN nor an infinity. -/
def Flt.isFinite : Flt → Bool
  | Flt.fin _ => true
  | Flt.nzero => true
  | _ => false

/-- Whether the datum is a binary32 value: rounding leaves it as it is. -/
def Flt.isBinary32 : Flt → Bool
  | Flt.fin q => decide (Flt.round32 q = Flt.fin q)
  | _ => true

/-- Unary minus: flips the sign bit. -/
def Flt.neg : Flt → Flt
  | Flt.nan => Flt.nan
  | Flt.inf neg => Flt.inf (!neg)
  | Flt.nzero => Flt.fin 0
  | Flt.fin q => if q = 0 then Flt.nzero else Flt.fin (-q)

/-- Addition: `inf + (-inf)` is NaN; an exact zero sum is `-0` only for
`(-0) + (-0)`. -/
def Flt.add : Flt → Flt → Flt
  | Flt.nan, _ => Flt.nan
  | _, Flt.nan => Flt.nan
  | Flt.inf a, Flt.inf b => if a = b then Flt.inf a else Flt.nan
  | Flt.inf a, _ => Flt.inf a
  | _, Flt.inf b => Flt.inf b
  | x, y =>
    if x.toRat + y.toRat = 0 then Flt.zero (x.isZero && y.isZero && x.isNeg && y.isNeg)
    else Flt.round32 (x.toRat + y.toRat)

/-- Subtraction, `x - y = x + (-y)`. -/
def Flt.sub (x y : Flt) : Flt := Flt.add x (Flt.neg y)

/-- Multiplication: `inf * 0` is NaN; the sign of the result is the exclusive
or of the signs. -/
def Flt.mul : Flt → Flt → Flt
  | Flt.nan, _ => Flt.nan
  | _, Flt.nan => Flt.nan
  | Flt.inf a, y => if y.isZero then Flt.nan else Flt.inf (xor a y.isNeg)
  | x, Flt.inf b => if x.isZero then Flt.nan else Flt.inf (xor x.isNeg b)
  | x, y =>
    if x.toRat * y.toRat = 0 then Flt.zero (xor x.isNeg y.isNeg)
    else Flt.round32 (x.toRat * y.toRat)

/-- Division: `inf / inf` and `0 / 0` are NaN, a finite value over an infinity
is a zero, a non-zero value over a zero is an infinity. -/
def Flt.div : Flt → Flt → Flt
  | Flt.nan, _ => Flt.nan
  | _, Flt.nan => Flt.nan
  | Flt.inf _, Flt.inf _ => Flt.nan
  | Flt.inf a, y => Flt.inf (xor a y.isNeg)
  | x, Flt.inf b => Flt.zero (xor x.isNeg b)
  | x, y =>
    if y.isZero then (if x.isZero then Flt.nan else Flt.inf (xor x.isNeg y.isNeg))
    else if x.isZero then Flt.zero (xor x.isNeg y.isNeg)
    else Flt.round32 (x.toRat / y.toRat)

/-- The comparison `==`: false whenever an operand is NaN; the two zeros are
equal. -/
def Flt.eq : Flt → Flt → Bool
  | Flt.nan, _ => false
  | _, Flt.nan => false
  | Flt.inf a, Flt.inf b => a == b
  | Flt.inf _, _ => false
  | _, Flt.inf _ => false
  | x, y => decide (x.toRat = y.toRat)

/-- The comparison `<`: false whenever an operand is NaN. -/
def Flt.lt : Flt → Flt → Bool
  | Flt.nan, _ => false
  | _, Flt.nan => false
  | Flt.inf a, Flt.inf b => a && !b
  | Flt.inf a, _ => a
  | _, Flt.inf b => !b
  | x, y => decide (x.toRat < y.toRat)

instance : Add Flt := ⟨Flt.add⟩

instance : Sub Flt := ⟨Flt.sub⟩

instance : Mul Flt := ⟨Flt.mul⟩

instance : Div Flt := ⟨Flt.div⟩

/-- `static_cast< float >( x )` of a `float`: the same value. -/
def Flt.ofFloat (x : Flt) : Flt := x

/-- `static_cast< float >( x )` of a `double`: the value rounded to binary32;
NaN, infinities and zeros are kept. -/
def Flt.ofDouble : Flt → Flt
  | Flt.fin q => Flt.round32 q
  | x => x

/-! ## The instantiation `Frustum<float>` -/

/-- `Frustumf`, the typedef of `Frustum<float>`: the six members as binary32
data. -/
structure Frustumf where
  left : Flt
  right : Flt
  top : Flt
  bottom : Flt
  near : Flt
  far : Flt
  deriving DecidableEq

/-- Modelled from the spec: the `Matrix4<float>` value type of the missing
header `Matrix4.h`, with the entries `m<row><col>`. -/
structure Matrix4f where
  m00 : Flt
  m01 : Flt
  m02 : Flt
  m03 : Flt
  m10 : Flt
  m11 : Flt
  m12 : Flt
  m13 : Flt
  m20 : Flt
  m21 : Flt
  m22 : Flt
  m23 : Flt
  m30 : Flt
  m31 : Flt
  m32 : Flt
  m33 : Flt
  deriving DecidableEq

/-- Modelled from the spec: `Matrix4<float>::IDENTITY` of the missing header
`Matrix4.h`. -/
def Matrix4f.IDENTITY : Matrix4f :=
  {
    m00 := Flt.fin 1, m01 := Flt.fin 0, m02 := Flt.fin 0, m03 := Flt.fin 0
    m10 := Flt.fin 0, m11 := Flt.fin 1, m12 := Flt.fin 0, m13 := Flt.fin 0
    m20 := Flt.fin 0, m21 := Flt.fin 0, m22 := Flt.fin 1, m23 := Flt.fin 0
    m30 := Flt.fin 0, m31 := Flt.fin 0, m32 := Flt.fin 0, m33 := Flt.fin 1 }

/-- Whether all sixteen entries are finite. -/
def Matrix4f.isFinite (m : Matrix4f) : Bool :=
  m.m00.isFinite && m.m01.isFinite && m.m02.isFinite && m.m03.isFinite &&
  m.m10.isFinite && m.m11.isFinite && m.m12.isFinite && m.m13.isFinite &&
  m.m20.isFinite && m.m21.isFinite && m.m22.isFinite && m.m23.isFinite &&
  m.m30.isFinite && m.m31.isFinite && m.m32.isFinite && m.m33.isFinite

/-- The matrix of the exact values of the entries, when all sixteen are
finite. -/
def Matrix4f.exact (m : Matrix4f) : Option Matrix4 :=
  if m.isFinite = true then
    some { m00 := m.m00.toRat, m01 := m.m01.toRat, m02 := m.m02.toRat, m03 := m.m03.toRat
           m10 := m.m10.toRat, m11 := m.m11.toRat, m12 := m.m12.toRat, m13 := m.m13.toRat
           m20 := m.m20.toRat, m21 := m.m21.toRat, m22 := m.m22.toRat, m23 := m.m23.toRat
           m30 := m.m30.toRat, m31 := m.m31.toRat, m32 := m.m32.toRat, m33 := m.m33.toRat }
  else none

/-- `Frustum<float>::Frustum( _left, _right, _top, _bottom, _near, _far )`. -/
def Frustumf.new (_left _right _top _bottom _near _far : Flt) : Frustumf :=
  { left := _left, right := _right, top := _top, bottom := _bottom,
    near := _near, far := _far }

/-- The array member `float data[6]` of the union. -/
def Frustumf.data (f : Frustumf) : Fin 6 → Flt :=
  ![f.left, f.right, f.top, f.bottom, f.near, f.far]

/-- `Frustum<float>::Frustum( const float* values )`.  A pointer is `none`
when null and otherwise the six values it points to; the `assert` stops a null
pointer, so no frustum is built from it. -/
def Frustumf.fromFloats (values : Option (Fin 6 → Flt)) : Option Frustumf :=
  match values with
  | none => none
  | some v =>
    some { left := Flt.ofFloat (v 0), right := Flt.ofFloat (v 1),
           top := Flt.ofFloat (v 2), bottom := Flt.ofFloat (v 3),
           near := Flt.ofFloat (v 4), far := Flt.ofFloat (v 5) }

/-- `Frustum<float>::Frustum( const double* values )`: the same body, the
conversion now narrowing from `double`. -/
def Frustumf.fromDoubles (values : Option (Fin 6 → Flt)) : Option Frustumf :=
  match values with
  | none => none
  | some v =>
    some { left := Flt.ofDouble (v 0), right := Flt.ofDouble (v 1),
           top := Flt.ofDouble (v 2), bottom := Flt.ofDouble (v 3),
           near := Flt.ofDouble (v 4), far := Flt.ofDouble (v 5) }

/-- `Frustum<float>::adjustNear( _near )`. -/
def Frustumf.adjustNear (f : Frustumf) (_near : Flt) : Frustumf :=
  if Flt.eq _near f.near = true then f
  else
    let ratio_2 : Flt := Flt.fin (1 / 2) * _near / f.near
    let hMiddle : Flt := (f.right + f.left) * Flt.fin (1 / 2)
    let width_2 : Flt := (f.right - f.left) * ratio_2
    let right' : Flt := hMiddle + width_2
    let left' : Flt := hMiddle - width_2
    let vMiddle : Flt := (f.top + f.bottom) * Flt.fin (1 / 2)
    let height_2 : Flt := (f.top - f.bottom) * ratio_2
    let top' : Flt := vMiddle + height_2
    let bottom' : Flt := vMiddle - height_2
    { left := left', right := right', top := top', bottom := bottom',
      near := _near, far := f.far }

/-- `Frustum<float>::computeMatrix()`. -/
def Frustumf.computeMatrix (f : Frustumf) : Matrix4f :=
  let matrix : Matrix4f := Matrix4f.IDENTITY
  let matrix := { matrix with m00 := Flt.fin 2 * f.near / (f.right - f.left) }
  let matrix := { matrix with m02 := (f.right + f.left) / (f.right - f.left) }
  let matrix := { matrix with m11 := Flt.fin 2 * f.near / (f.top - f.bottom) }
  let matrix := { matrix with m12 := (f.top + f.bottom) / (f.top - f.bottom) }
  let matrix := { matrix with m22 := (f.far + f.near) / (f.far - f.near) }
  let matrix := { matrix with m23 := Flt.fin 2 * f.far * f.near / (f.far - f.near) }
  let matrix := { matrix with m32 := Flt.fin (-1) }
  let matrix := { matrix with m33 := Flt.fin 0 }
  matrix

/-- The data-model invariants `left < right`, `bottom < top`, `0 < near < far`
with the comparisons of binary32. -/
def Frustumf.Valid (f : Frustumf) : Prop :=
  Flt.lt f.left f.right = true ∧ Flt.lt f.bottom f.top = true ∧
  Flt.lt (Flt.fin 0) f.near = true ∧ Flt.lt f.near f.far = true

instance (f : Frustumf) : Decidable f.Valid := by
  unfold Frustumf.Valid; infer_instance

/-- Whether the six members are binary32 values. -/
def Frustumf.isBinary32 (f : Frustumf) : Bool :=
  f.left.isBinary32 && f.right.isBinary32 && f.top.isBinary32 &&
  f.bottom.isBinary32 && f.near.isBinary32 && f.far.isBinary32

/-! ## Inputs of the floating-point examples -/

/-- The `float` frustum `(-1, 1, 1, -1, NaN, 100)`. -/
def Frustumf.nanNear : Frustumf :=
  Frustumf.new (Flt.fin (-1)) (Flt.fin 1) (Flt.fin 1) (Flt.fin (-1)) Flt.nan (Flt.fin 100)

/-- The `float` frustum `(-1, 1, 1, -1, 0, 100)`. -/
def Frustumf.zeroNear : Frustumf :=
  Frustumf.new (Flt.fin (-1)) (Flt.fin 1) (Flt.fin 1) (Flt.fin (-1)) (Flt.fin 0) (Flt.fin 100)

/-- The `float` frustum `(-2^127, 2^127, 1, -1, 1, 3)`. -/
def Frustumf.wide : Frustumf :=
  Frustumf.new (Flt.fin (-pow2 127)) (Flt.fin (pow2 127)) (Flt.fin 1) (Flt.fin (-1))
    (Flt.fin 1) (Flt.fin 3)

/-- The `float` frustum `(2^127, 1.5 * 2^127, 1, -1, 1, 100)`. -/
def Frustumf.huge : Frustumf :=
  Frustumf.new (Flt.fin (pow2 127)) (Flt.fin (3 * pow2 126)) (Flt.fin 1) (Flt.fin (-1))
    (Flt.fin 1) (Flt.fin 100)

/-- The exact values of the matrix that `computeMatrix` returns for
`Frustumf.wide`. -/
def Matrix4.wideMatrix : Matrix4 :=
  { m00 := 0, m01 := 0, m02 := 0, m03 := 0
    m10 := 0, m11 := 1, m12 := 0, m13 := 0
    m20 := 0, m21 := 0, m22 := 2, m23 := 3
    m30 := 0, m31 := 0, m32 := -1, m33 := 0 }

/-- The `double` array `{ 16777217, 1, 1, -1, 1, 100 }`. -/
def doubleValues : Fin 6 → Flt :=
  ![Flt.fin 16777217, Flt.fin 1, Flt.fin 1, Flt.fin (-1), Flt.fin 1, Flt.fin 100]

/-! ## `computeMatrix`: the overwritten entries -/

/-- C1, as stated, fails at its own example: for the bounds
`(-1, 1, -1, 1, 1, 100)` in the constructor's order (so `top = -1` and
`bottom = 1`) the entries are not `m00 = 1, m02 = 0, m11 = 1, m12 = 0,
m22 = 101/99, m23 = 200/99, m32 = -1, m33 = 0`. -/
theorem C1_example_values_fail :
    ¬ ((Frustum.new (-1) 1 (-1) 1 1 100).computeMatrix.m00 = 1 ∧
       (Frustum.new (-1) 1 (-1) 1 1 100).computeMatrix.m02 = 0 ∧
       (Frustum.new (-1) 1 (-1) 1 1 100).computeMatrix.m11 = 1 ∧
       (Frustum.new (-1) 1 (-1) 1 1 100).computeMatrix.m12 = 0 ∧
       (Frustum.new (-1) 1 (-1) 1 1 100).computeMatrix.m22 = 101 / 99 ∧
       (Frustum.new (-1) 1 (-1) 1 1 100).computeMatrix.m23 = 200 / 99 ∧
       (Frustum.new (-1) 1 (-1) 1 1 100).computeMatrix.m32 = -1 ∧
       (Frustum.new (-1) 1 (-1) 1 1 100).computeMatrix.m33 = 0) := by
  rintro ⟨-, -, h11, -⟩
  norm_num [Frustum.computeMatrix, Frustum.new] at h11

/-- C1 (amended): for every frustum `computeMatrix` returns the matrix with
`m00 = 2*near/(right-left)`, `m02 = (right+left)/(right-left)`,
`m11 = 2*near/(top-bottom)`, `m12 = (top+bottom)/(top-bottom)`,
`m22 = (far+near)/(far-near)`, `m23 = 2*far*near/(far-near)`, `m32 = -1` and
`m33 = 0`; for the bounds `(-1, 1, -1, 1, 1, 100)` these are `m00 = 1`,
`m02 = 0`, `m11 = -1`, `m12 = 0`, `m22 = 101/99`, `m23 = 200/99`, `m32 = -1`,
`m33 = 0`. -/
theorem C1_computeMatrix_entries :
    (∀ f : Frustum,
      f.computeMatrix.m00 = 2 * f.near / (f.right - f.left) ∧
      f.computeMatrix.m02 = (f.right + f.left) / (f.right - f.left) ∧
      f.computeMatrix.m11 = 2 * f.near / (f.top - f.bottom) ∧
      f.computeMatrix.m12 = (f.top + f.bottom) / (f.top - f.bottom) ∧
      f.computeMatrix.m22 = (f.far + f.near) / (f.far - f.near) ∧
      f.computeMatrix.m23 = 2 * f.far * f.near / (f.far - f.near) ∧
      f.computeMatrix.m32 = -1 ∧
      f.computeMatrix.m33 = 0) ∧
    ((Frustum.new (-1) 1 (-1) 1 1 100).computeMatrix.m00 = 1 ∧
     (Frustum.new (-1) 1 (-1) 1 1 100).computeMatrix.m02 = 0 ∧
     (Frustum.new (-1) 1 (-1) 1 1 100).computeMatrix.m11 = -1 ∧
     (Frustum.new (-1) 1 (-1) 1 1 100).computeMatrix.m12 = 0 ∧
     (Frustum.new (-1) 1 (-1) 1 1 100).computeMatrix.m22 = 101 / 99 ∧
     (Frustum.new (-1) 1 (-1) 1 1 100).computeMatrix.m23 = 200 / 99 ∧
     (Frustum.new (-1) 1 (-1) 1 1 100).computeMatrix.m32 = -1 ∧
     (Frustum.new (-1) 1 (-1) 1 1 100).computeMatrix.m33 = 0) := by
  refine ⟨fun f => ⟨rfl, rfl, rfl, rfl, rfl, rfl, rfl, rfl⟩, ?_⟩
  norm_num [Frustum.computeMatrix, Frustum.new]

/-! ## `adjustNear` -/

/-- The fields of `adjustNear` when the early return is not taken. -/
theorem adjustNear_of_ne (f : Frustum) (n : ℚ) (h : n ≠ f.near) :
    f.adjustNear n =
      { left := (f.right + f.left) * (1 / 2) - (f.right - f.left) * ((1 / 2) * n / f.near)
        right := (f.right + f.left) * (1 / 2) + (f.right - f.left) * ((1 / 2) * n / f.near)
        top := (f.top + f.bottom) * (1 / 2) + (f.top - f.bottom) * ((1 / 2) * n / f.near)
        bottom := (f.top + f.bottom) * (1 / 2) - (f.top - f.bottom) * ((1 / 2) * n / f.near)
        near := n
        far := f.far } := by
  simp [Frustum.adjustNear, h]

/-- The early return of `adjustNear`. -/
theorem adjustNear_of_eq (f : Frustum) (n : ℚ) (h : n = f.near) :
    f.adjustNear n = f := by
  simp [Frustum.adjustNear, h]

/-- C2: for `near ≠ 0` and `newNear ≠ 0`, `adjustNear(newNear)` keeps
`(right-left)/near` and `(top-bottom)/near`. -/
theorem C2_adjustNear_angular_extent (f : Frustum) (newNear : ℚ)
    (hnear : f.near ≠ 0) (hnew : newNear ≠ 0) :
    ((f.adjustNear newNear).right - (f.adjustNear newNear).left) / (f.adjustNear newNear).near
        = (f.right - f.left) / f.near ∧
    ((f.adjustNear newNear).top - (f.adjustNear newNear).bottom) / (f.adjustNear newNear).near
        = (f.top - f.bottom) / f.near := by
  by_cases h : newNear = f.near
  · rw [adjustNear_of_eq f newNear h]
    exact ⟨rfl, rfl⟩
  · rw [adjustNear_of_ne f newNear h]
    constructor
    · show _ / newNear = _
      field_simp
      ring
    · show _ / newNear = _
      field_simp
      ring

/-- C2 at the bounds `(-2, 2, -1, 1, 1, 100)` with `adjustNear(2)`. -/
theorem C2_adjustNear_angular_extent_witness :
    (Frustum.new (-2) 2 (-1) 1 1 100).near ≠ 0 ∧ (2 : ℚ) ≠ 0 ∧
    (((Frustum.new (-2) 2 (-1) 1 1 100).adjustNear 2).right
        - ((Frustum.new (-2) 2 (-1) 1 1 100).adjustNear 2).left)
        / ((Frustum.new (-2) 2 (-1) 1 1 100).adjustNear 2).near
      = ((Frustum.new (-2) 2 (-1) 1 1 100).right - (Frustum.new (-2) 2 (-1) 1 1 100).left)
        / (Frustum.new (-2) 2 (-1) 1 1 100).near ∧
    (((Frustum.new (-2) 2 (-1) 1 1 100).adjustNear 2).top
        - ((Frustum.new (-2) 2 (-1) 1 1 100).adjustNear 2).bottom)
        / ((Frustum.new (-2) 2 (-1) 1 1 100).adjustNear 2).near
      = ((Frustum.new (-2) 2 (-1) 1 1 100).top - (Frustum.new (-2) 2 (-1) 1 1 100).bottom)
        / (Frustum.new (-2) 2 (-1) 1 1 100).near :=
  ⟨by norm_num [Frustum.new], by norm_num,
    C2_adjustNear_angular_extent (Frustum.new (-2) 2 (-1) 1 1 100) 2
      (by norm_num [Frustum.new]) (by norm_num)⟩

/-- C3: for `near ≠ 0`, `adjustNear(newNear)` leaves the midpoints
`(right+left)/2` and `(top+bottom)/2` unchanged. -/
theorem C3_adjustNear_midpoints (f : Frustum) (newNear : ℚ) (_hnear : f.near ≠ 0) :
    ((f.adjustNear newNear).right + (f.adjustNear newNear).left) / 2
        = (f.right + f.left) / 2 ∧
    ((f.adjustNear newNear).top + (f.adjustNear newNear).bottom) / 2
        = (f.top + f.bottom) / 2 := by
  by_cases h : newNear = f.near
  · rw [adjustNear_of_eq f newNear h]
    exact ⟨rfl, rfl⟩
  · rw [adjustNear_of_ne f newNear h]
    constructor
    · show (_ + _ + (_ - _)) / 2 = _
      ring
    · show (_ + _ + (_ - _)) / 2 = _
      ring

/-- C3 at the bounds `(-2, 2, -1, 1, 1, 100)` with `adjustNear(2)`. -/
theorem C3_adjustNear_midpoints_witness :
    (Frustum.new (-2) 2 (-1) 1 1 100).near ≠ 0 ∧
    (((Frustum.new (-2) 2 (-1) 1 1 100).adjustNear 2).right
        + ((Frustum.new (-2) 2 (-1) 1 1 100).adjustNear 2).left) / 2
      = ((Frustum.new (-2) 2 (-1) 1 1 100).right + (Frustum.new (-2) 2 (-1) 1 1 100).left) / 2 ∧
    (((Frustum.new (-2) 2 (-1) 1 1 100).adjustNear 2).top
        + ((Frustum.new (-2) 2 (-1) 1 1 100).adjustNear 2).bottom) / 2
      = ((Frustum.new (-2) 2 (-1) 1 1 100).top + (Frustum.new (-2) 2 (-1) 1 1 100).bottom) / 2 :=
  ⟨by norm_num [Frustum.new],
    C3_adjustNear_midpoints (Frustum.new (-2) 2 (-1) 1 1 100) 2 (by norm_num [Frustum.new])⟩

/-- In exact arithmetic `adjustNear` called with the frustum's current `near`
(also when it is 0) returns the frustum unchanged, all six fields. -/
theorem adjustNear_same_near_exact (f : Frustum) :
    f.adjustNear f.near = f ∧
    (f.adjustNear f.near).left = f.left ∧ (f.adjustNear f.near).right = f.right ∧
    (f.adjustNear f.near).top = f.top ∧ (f.adjustNear f.near).bottom = f.bottom ∧
    (f.adjustNear f.near).near = f.near ∧ (f.adjustNear f.near).far = f.far := by
  have h : f.adjustNear f.near = f := adjustNear_of_eq f f.near rfl
  rw [h]
  exact ⟨rfl, rfl, rfl, rfl, rfl, rfl, rfl⟩

/-- Change of the slope of the lower bound (`left`, `bottom`). -/
theorem slope_lo (l r n k : ℚ) (hn : n ≠ 0) (hk : k ≠ 0) :
    ((r + l) * (1 / 2) - (r - l) * ((1 / 2) * n / k)) / n - l / k
      = (r + l) * (k - n) / (2 * n * k) := by
  field_simp
  ring

/-- Change of the slope of the upper bound (`right`, `top`). -/
theorem slope_hi (l r n k : ℚ) (hn : n ≠ 0) (hk : k ≠ 0) :
    ((r + l) * (1 / 2) + (r - l) * ((1 / 2) * n / k)) / n - r / k
      = (r + l) * (k - n) / (2 * n * k) := by
  field_simp
  ring

/-- Change of the skew term `(hi+lo)/(hi-lo)`. -/
theorem skew_diff (l r n k : ℚ) (hn : n ≠ 0) (hk : k ≠ 0) (hrl : r - l ≠ 0) :
    ((r + l) * (1 / 2) + (r - l) * ((1 / 2) * n / k)
        + ((r + l) * (1 / 2) - (r - l) * ((1 / 2) * n / k)))
      / ((r + l) * (1 / 2) + (r - l) * ((1 / 2) * n / k)
        - ((r + l) * (1 / 2) - (r - l) * ((1 / 2) * n / k)))
      - (r + l) / (r - l)
      = (r + l) * (k - n) / ((r - l) * n) := by
  have h1 : (r + l) * (1 / 2) + (r - l) * ((1 / 2) * n / k)
        + ((r + l) * (1 / 2) - (r - l) * ((1 / 2) * n / k)) = r + l := by ring
  have h2 : (r + l) * (1 / 2) + (r - l) * ((1 / 2) * n / k)
        - ((r + l) * (1 / 2) - (r - l) * ((1 / 2) * n / k)) = (r - l) * n / k := by
    field_simp
    ring
  rw [h1, h2]
  field_simp
  ring

/-- A quotient `m * (k - n) / d` with `d ≠ 0` and `n ≠ k` vanishes exactly when
`m` does. -/
theorem shift_eq_zero_iff (m n k d : ℚ) (hd : d ≠ 0) (hnk : n ≠ k) :
    m * (k - n) / d = 0 ↔ m = 0 := by
  have hkn : k - n ≠ 0 := sub_ne_zero.mpr (Ne.symm hnk)
  rw [div_eq_zero_iff, mul_eq_zero]
  constructor
  · rintro ((h | h) | h)
    · exact h
    · exact absurd h hkn
    · exact absurd h hd
  · intro h
    exact Or.inl (Or.inl h)

/-- Both slopes of one axis are kept by `adjustNear` exactly when the near
value is not changed or the midpoint of the axis is 0. -/
theorem slopes_kept_iff (l r n k : ℚ) (hn : n ≠ 0) (hk : k ≠ 0) (hnk : n ≠ k) :
    (((r + l) * (1 / 2) - (r - l) * ((1 / 2) * n / k)) / n = l / k ∧
     ((r + l) * (1 / 2) + (r - l) * ((1 / 2) * n / k)) / n = r / k) ↔ r + l = 0 := by
  have hd : 2 * n * k ≠ 0 := mul_ne_zero (mul_ne_zero two_ne_zero hn) hk
  rw [← sub_eq_zero, ← sub_eq_zero (b := r / k), slope_lo l r n k hn hk,
    slope_hi l r n k hn hk, shift_eq_zero_iff (r + l) n k _ hd hnk]
  exact and_self_iff

/-- C6, as stated, fails for an off-axis frustum: the bounds
`(0, 2, 1, -1, 1, 100)` satisfy `left < right`, `bottom < top`,
`0 < near < far`, and `adjustNear(2)` turns them into `(-1, 3, 2, -2, 2, 100)`,
so `left/near` goes from `0` to `-1/2`. -/
theorem C6_slopes_not_kept :
    (Frustum.new 0 2 1 (-1) 1 100).Valid ∧ (0 : ℚ) < 2 ∧
    ¬ (((Frustum.new 0 2 1 (-1) 1 100).adjustNear 2).left / ((Frustum.new 0 2 1 (-1) 1 100).adjustNear 2).near = (Frustum.new 0 2 1 (-1) 1 100).left / (Frustum.new 0 2 1 (-1) 1 100).near ∧
       ((Frustum.new 0 2 1 (-1) 1 100).adjustNear 2).right / ((Frustum.new 0 2 1 (-1) 1 100).adjustNear 2).near = (Frustum.new 0 2 1 (-1) 1 100).right / (Frustum.new 0 2 1 (-1) 1 100).near ∧
       ((Frustum.new 0 2 1 (-1) 1 100).adjustNear 2).bottom / ((Frustum.new 0 2 1 (-1) 1 100).adjustNear 2).near = (Frustum.new 0 2 1 (-1) 1 100).bottom / (Frustum.new 0 2 1 (-1) 1 100).near ∧
       ((Frustum.new 0 2 1 (-1) 1 100).adjustNear 2).top / ((Frustum.new 0 2 1 (-1) 1 100).adjustNear 2).near = (Frustum.new 0 2 1 (-1) 1 100).top / (Frustum.new 0 2 1 (-1) 1 100).near) := by
  norm_num [Frustum.adjustNear, Frustum.new, Frustum.Valid]

/-- C6 (amended): for every frustum with `left < right`, `bottom < top`,
`0 < near < far` and every `newNear > 0`, `adjustNear(newNear)` keeps the two
horizontal slopes `left/near` and `right/near` exactly when `newNear` is the
current `near` or `right + left = 0`, and the two vertical slopes `bottom/near`
and `top/near` exactly when `newNear` is the current `near` or
`top + bottom = 0`. -/
theorem C6_adjustNear_slopes (f : Frustum) (newNear : ℚ) (hv : f.Valid)
    (hnew : 0 < newNear) :
    (((f.adjustNear newNear).left / (f.adjustNear newNear).near = f.left / f.near ∧
      (f.adjustNear newNear).right / (f.adjustNear newNear).near = f.right / f.near)
        ↔ (newNear = f.near ∨ f.right + f.left = 0)) ∧
    (((f.adjustNear newNear).bottom / (f.adjustNear newNear).near = f.bottom / f.near ∧
      (f.adjustNear newNear).top / (f.adjustNear newNear).near = f.top / f.near)
        ↔ (newNear = f.near ∨ f.top + f.bottom = 0)) := by
  obtain ⟨-, -, hnear, -⟩ := hv
  by_cases h : newNear = f.near
  · rw [adjustNear_of_eq f newNear h]
    simp [h]
  · rw [adjustNear_of_ne f newNear h]
    simp only [h, false_or]
    exact ⟨slopes_kept_iff f.left f.right newNear f.near hnew.ne' hnear.ne' h,
      slopes_kept_iff f.bottom f.top newNear f.near hnew.ne' hnear.ne' h⟩

/-- C6 (amended) at the bounds `(0, 2, 1, -1, 1, 100)` with `adjustNear(2)`. -/
theorem C6_adjustNear_slopes_witness :
    (Frustum.new 0 2 1 (-1) 1 100).Valid ∧ (0 : ℚ) < 2 ∧
    ((((Frustum.new 0 2 1 (-1) 1 100).adjustNear 2).left / ((Frustum.new 0 2 1 (-1) 1 100).adjustNear 2).near = (Frustum.new 0 2 1 (-1) 1 100).left / (Frustum.new 0 2 1 (-1) 1 100).near ∧ ((Frustum.new 0 2 1 (-1) 1 100).adjustNear 2).right / ((Frustum.new 0 2 1 (-1) 1 100).adjustNear 2).near = (Frustum.new 0 2 1 (-1) 1 100).right / (Frustum.new 0 2 1 (-1) 1 100).near)
        ↔ ((2 : ℚ) = (Frustum.new 0 2 1 (-1) 1 100).near ∨ (Frustum.new 0 2 1 (-1) 1 100).right + (Frustum.new 0 2 1 (-1) 1 100).left = 0)) ∧
    ((((Frustum.new 0 2 1 (-1) 1 100).adjustNear 2).bottom / ((Frustum.new 0 2 1 (-1) 1 100).adjustNear 2).near = (Frustum.new 0 2 1 (-1) 1 100).bottom / (Frustum.new 0 2 1 (-1) 1 100).near ∧ ((Frustum.new 0 2 1 (-1) 1 100).adjustNear 2).top / ((Frustum.new 0 2 1 (-1) 1 100).adjustNear 2).near = (Frustum.new 0 2 1 (-1) 1 100).top / (Frustum.new 0 2 1 (-1) 1 100).near)
        ↔ ((2 : ℚ) = (Frustum.new 0 2 1 (-1) 1 100).near ∨ (Frustum.new 0 2 1 (-1) 1 100).top + (Frustum.new 0 2 1 (-1) 1 100).bottom = 0)) :=
  ⟨by norm_num [Frustum.new, Frustum.Valid], by norm_num,
    C6_adjustNear_slopes (Frustum.new 0 2 1 (-1) 1 100) 2 (by norm_num [Frustum.new, Frustum.Valid]) (by norm_num)⟩

/-- C7, as stated, fails for an off-axis frustum: for the bounds
`(0, 2, 1, -1, 1, 100)` the skew term `(right+left)/(right-left)`, the entry
`m02`, is `1` before `adjustNear(2)` and `1/2` after it. -/
theorem C7_skew_not_kept :
    (Frustum.new 0 2 1 (-1) 1 100).Valid ∧ (0 : ℚ) < 2 ∧
    ¬ (((Frustum.new 0 2 1 (-1) 1 100).adjustNear 2).computeMatrix.m02 = (Frustum.new 0 2 1 (-1) 1 100).computeMatrix.m02 ∧
       ((Frustum.new 0 2 1 (-1) 1 100).adjustNear 2).computeMatrix.m12 = (Frustum.new 0 2 1 (-1) 1 100).computeMatrix.m12) := by
  norm_num [Frustum.adjustNear, Frustum.new, Frustum.Valid, Frustum.computeMatrix]

/-- C7 (amended): for every frustum with `left < right`, `bottom < top`,
`0 < near < far` and every `newNear > 0`, the skew term
`(right+left)/(right-left)` (entry `m02` of `computeMatrix`) is the same before
and after `adjustNear(newNear)` exactly when `newNear` is the current `near` or
`right + left = 0`, and `(top+bottom)/(top-bottom)` (entry `m12`) exactly when
`newNear` is the current `near` or `top + bottom = 0`. -/
theorem C7_adjustNear_skew (f : Frustum) (newNear : ℚ) (hv : f.Valid)
    (hnew : 0 < newNear) :
    ((f.adjustNear newNear).computeMatrix.m02 = f.computeMatrix.m02
        ↔ (newNear = f.near ∨ f.right + f.left = 0)) ∧
    ((f.adjustNear newNear).computeMatrix.m12 = f.computeMatrix.m12
        ↔ (newNear = f.near ∨ f.top + f.bottom = 0)) := by
  obtain ⟨hlr, hbt, hnear, -⟩ := hv
  have hrl : f.right - f.left ≠ 0 := (sub_pos.mpr hlr).ne'
  have htb : f.top - f.bottom ≠ 0 := (sub_pos.mpr hbt).ne'
  by_cases h : newNear = f.near
  · rw [adjustNear_of_eq f newNear h]
    simp [h]
  · rw [adjustNear_of_ne f newNear h]
    simp only [h, false_or]
    constructor
    · show (_ + _ + (_ - _)) / (_ + _ - (_ - _)) = (f.right + f.left) / (f.right - f.left) ↔ _
      rw [← sub_eq_zero, skew_diff f.left f.right newNear f.near hnew.ne' hnear.ne' hrl]
      exact shift_eq_zero_iff _ _ _ _ (mul_ne_zero hrl hnew.ne') h
    · show (_ + _ + (_ - _)) / (_ + _ - (_ - _)) = (f.top + f.bottom) / (f.top - f.bottom) ↔ _
      rw [← sub_eq_zero, skew_diff f.bottom f.top newNear f.near hnew.ne' hnear.ne' htb]
      exact shift_eq_zero_iff _ _ _ _ (mul_ne_zero htb hnew.ne') h

/-- C7 (amended) at the bounds `(0, 2, 1, -1, 1, 100)` with `adjustNear(2)`. -/
theorem C7_adjustNear_skew_witness :
    (Frustum.new 0 2 1 (-1) 1 100).Valid ∧ (0 : ℚ) < 2 ∧
    (((Frustum.new 0 2 1 (-1) 1 100).adjustNear 2).computeMatrix.m02 = (Frustum.new 0 2 1 (-1) 1 100).computeMatrix.m02
        ↔ ((2 : ℚ) = (Frustum.new 0 2 1 (-1) 1 100).near ∨ (Frustum.new 0 2 1 (-1) 1 100).right + (Frustum.new 0 2 1 (-1) 1 100).left = 0)) ∧
    (((Frustum.new 0 2 1 (-1) 1 100).adjustNear 2).computeMatrix.m12 = (Frustum.new 0 2 1 (-1) 1 100).computeMatrix.m12
        ↔ ((2 : ℚ) = (Frustum.new 0 2 1 (-1) 1 100).near ∨ (Frustum.new 0 2 1 (-1) 1 100).top + (Frustum.new 0 2 1 (-1) 1 100).bottom = 0)) :=
  ⟨by norm_num [Frustum.new, Frustum.Valid], by norm_num,
    C7_adjustNear_skew (Frustum.new 0 2 1 (-1) 1 100) 2 (by norm_num [Frustum.new, Frustum.Valid]) (by norm_num)⟩

/-- C8: for `near ≠ 0`, `top ≠ bottom` and `newNear ≠ 0`, `adjustNear(newNear)`
keeps the aspect ratio `(right-left)/(top-bottom)`. -/
theorem C8_adjustNear_aspect (f : Frustum) (newNear : ℚ)
    (hnear : f.near ≠ 0) (htb : f.top ≠ f.bottom) (hnew : newNear ≠ 0) :
    ((f.adjustNear newNear).right - (f.adjustNear newNear).left)
        / ((f.adjustNear newNear).top - (f.adjustNear newNear).bottom)
      = (f.right - f.left) / (f.top - f.bottom) := by
  have htb' : f.top - f.bottom ≠ 0 := sub_ne_zero.mpr htb
  by_cases h : newNear = f.near
  · rw [adjustNear_of_eq f newNear h]
  · rw [adjustNear_of_ne f newNear h]
    show (_ + _ - (_ - _)) / (_ + _ - (_ - _)) = _
    have hw : (f.right + f.left) * (1 / 2) + (f.right - f.left) * ((1 / 2) * newNear / f.near)
        - ((f.right + f.left) * (1 / 2) - (f.right - f.left) * ((1 / 2) * newNear / f.near))
        = (f.right - f.left) * (newNear / f.near) := by ring
    have hh : (f.top + f.bottom) * (1 / 2) + (f.top - f.bottom) * ((1 / 2) * newNear / f.near)
        - ((f.top + f.bottom) * (1 / 2) - (f.top - f.bottom) * ((1 / 2) * newNear / f.near))
        = (f.top - f.bottom) * (newNear / f.near) := by ring
    rw [hw, hh]
    exact mul_div_mul_right _ _ (div_ne_zero hnew hnear)

/-- C8 at the bounds `(0, 2, 1, -1, 1, 100)` with `adjustNear(2)`. -/
theorem C8_adjustNear_aspect_witness :
    (Frustum.new 0 2 1 (-1) 1 100).near ≠ 0 ∧ (Frustum.new 0 2 1 (-1) 1 100).top ≠ (Frustum.new 0 2 1 (-1) 1 100).bottom ∧ (2 : ℚ) ≠ 0 ∧
    (((Frustum.new 0 2 1 (-1) 1 100).adjustNear 2).right - ((Frustum.new 0 2 1 (-1) 1 100).adjustNear 2).left) / (((Frustum.new 0 2 1 (-1) 1 100).adjustNear 2).top - ((Frustum.new 0 2 1 (-1) 1 100).adjustNear 2).bottom)
      = ((Frustum.new 0 2 1 (-1) 1 100).right - (Frustum.new 0 2 1 (-1) 1 100).left) / ((Frustum.new 0 2 1 (-1) 1 100).top - (Frustum.new 0 2 1 (-1) 1 100).bottom) :=
  ⟨by norm_num [Frustum.new], by norm_num [Frustum.new], by norm_num,
    C8_adjustNear_aspect (Frustum.new 0 2 1 (-1) 1 100) 2 (by norm_num [Frustum.new]) (by norm_num [Frustum.new])
      (by norm_num)⟩

/-! ## `computeMatrix`: the untouched entries and the determinant -/

/-- C9: the eight entries of `computeMatrix` that are not overwritten (`m01`,
`m03`, `m10`, `m13`, `m20`, `m21`, `m30`, `m31`) are those of the identity
matrix; none of them is on the diagonal, so all are 0. -/
theorem C9_computeMatrix_untouched (f : Frustum) :
    (f.computeMatrix.m01 = Matrix4.IDENTITY.m01 ∧
     f.computeMatrix.m03 = Matrix4.IDENTITY.m03 ∧
     f.computeMatrix.m10 = Matrix4.IDENTITY.m10 ∧
     f.computeMatrix.m13 = Matrix4.IDENTITY.m13 ∧
     f.computeMatrix.m20 = Matrix4.IDENTITY.m20 ∧
     f.computeMatrix.m21 = Matrix4.IDENTITY.m21 ∧
     f.computeMatrix.m30 = Matrix4.IDENTITY.m30 ∧
     f.computeMatrix.m31 = Matrix4.IDENTITY.m31) ∧
    (f.computeMatrix.m01 = 0 ∧ f.computeMatrix.m03 = 0 ∧
     f.computeMatrix.m10 = 0 ∧ f.computeMatrix.m13 = 0 ∧
     f.computeMatrix.m20 = 0 ∧ f.computeMatrix.m21 = 0 ∧
     f.computeMatrix.m30 = 0 ∧ f.computeMatrix.m31 = 0) :=
  ⟨⟨rfl, rfl, rfl, rfl, rfl, rfl, rfl, rfl⟩, ⟨rfl, rfl, rfl, rfl, rfl, rfl, rfl, rfl⟩⟩

/-- C11: the six-argument constructor assigns positionally, and `data[0..5]` of
the constructed frustum are `l, r, t, b, n, f` in that order. -/
theorem C11_constructor_fields_and_data (l r t b n f : ℚ) :
    ((Frustum.new l r t b n f).left = l ∧ (Frustum.new l r t b n f).right = r ∧
     (Frustum.new l r t b n f).top = t ∧ (Frustum.new l r t b n f).bottom = b ∧
     (Frustum.new l r t b n f).near = n ∧ (Frustum.new l r t b n f).far = f) ∧
    ((Frustum.new l r t b n f).data 0 = l ∧ (Frustum.new l r t b n f).data 1 = r ∧
     (Frustum.new l r t b n f).data 2 = t ∧ (Frustum.new l r t b n f).data 3 = b ∧
     (Frustum.new l r t b n f).data 4 = n ∧ (Frustum.new l r t b n f).data 5 = f) :=
  ⟨⟨rfl, rfl, rfl, rfl, rfl, rfl⟩, ⟨rfl, rfl, rfl, rfl, rfl, rfl⟩⟩

/-- C12: `DEFAULT` is the frustum constructed from `(-1, 1, -1, 1, 0.1, 100.0)`:
`left = -1`, `right = 1`, `top = -1`, `bottom = 1`, `near = 1/10`, `far = 100`. -/
theorem C12_DEFAULT_value :
    Frustum.DEFAULT = Frustum.new (-1) 1 (-1) 1 0.1 100.0 ∧
    Frustum.DEFAULT.left = -1 ∧ Frustum.DEFAULT.right = 1 ∧
    Frustum.DEFAULT.top = -1 ∧ Frustum.DEFAULT.bottom = 1 ∧
    Frustum.DEFAULT.near = 1 / 10 ∧ Frustum.DEFAULT.far = 100 := by
  norm_num [Frustum.DEFAULT, Frustum.new]

/-! ## `computeMatrix` as a projection -/

/-- The four components of `computeMatrix * (x, y, z, 1)`. -/
theorem clip_components (f : Frustum) (x y z : ℚ) :
    f.clip x y z 0 = 2 * f.near / (f.right - f.left) * x
        + (f.right + f.left) / (f.right - f.left) * z ∧
    f.clip x y z 1 = 2 * f.near / (f.top - f.bottom) * y
        + (f.top + f.bottom) / (f.top - f.bottom) * z ∧
    f.clip x y z 2 = (f.far + f.near) / (f.far - f.near) * z
        + 2 * f.far * f.near / (f.far - f.near) ∧
    f.clip x y z 3 = -z := by
  simp [Frustum.clip, Matrix4.mulVec, Matrix4.toMatrix, Matrix.mulVec, Matrix.dotProduct,
    Fin.sum_univ_four, Frustum.computeMatrix, Matrix4.IDENTITY]

/-- C15 (amended): in exact arithmetic, for `left ≠ right`, `top ≠ bottom`,
`near ≠ 0`, with
`clip = computeMatrix * (x, y, -near, 1)`: `clip.x / clip.w` is `-1` at
`x = left` and `+1` at `x = right`, and `clip.y / clip.w` is `-1` at
`y = bottom` and `+1` at `y = top`. -/
theorem C15_near_bounds_to_clip_boundary (f : Frustum) (x y : ℚ)
    (hlr : f.left ≠ f.right) (htb : f.top ≠ f.bottom) (hnear : f.near ≠ 0) :
    f.clip f.left y (-f.near) 0 / f.clip f.left y (-f.near) 3 = -1 ∧
    f.clip f.right y (-f.near) 0 / f.clip f.right y (-f.near) 3 = 1 ∧
    f.clip x f.bottom (-f.near) 1 / f.clip x f.bottom (-f.near) 3 = -1 ∧
    f.clip x f.top (-f.near) 1 / f.clip x f.top (-f.near) 3 = 1 := by
  have hrl : f.right - f.left ≠ 0 := sub_ne_zero.mpr (Ne.symm hlr)
  have htb' : f.top - f.bottom ≠ 0 := sub_ne_zero.mpr htb
  refine ⟨?_, ?_, ?_, ?_⟩
  · rw [(clip_components f f.left y (-f.near)).1, (clip_components f f.left y (-f.near)).2.2.2]
    field_simp
    ring
  · rw [(clip_components f f.right y (-f.near)).1, (clip_components f f.right y (-f.near)).2.2.2]
    field_simp
    ring
  · rw [(clip_components f x f.bottom (-f.near)).2.1,
      (clip_components f x f.bottom (-f.near)).2.2.2]
    field_simp
    ring
  · rw [(clip_components f x f.top (-f.near)).2.1, (clip_components f x f.top (-f.near)).2.2.2]
    field_simp
    ring

/-- C15 (amended) at the bounds `(-1, 3, 2, -1, 1, 100)` and the point `x = 5`, `y = 7`. -/
theorem C15_near_bounds_to_clip_boundary_witness :
    (Frustum.new (-1) 3 2 (-1) 1 100).left ≠ (Frustum.new (-1) 3 2 (-1) 1 100).right ∧ (Frustum.new (-1) 3 2 (-1) 1 100).top ≠ (Frustum.new (-1) 3 2 (-1) 1 100).bottom ∧ (Frustum.new (-1) 3 2 (-1) 1 100).near ≠ 0 ∧
    (Frustum.new (-1) 3 2 (-1) 1 100).clip (Frustum.new (-1) 3 2 (-1) 1 100).left 7 (-(Frustum.new (-1) 3 2 (-1) 1 100).near) 0 / (Frustum.new (-1) 3 2 (-1) 1 100).clip (Frustum.new (-1) 3 2 (-1) 1 100).left 7 (-(Frustum.new (-1) 3 2 (-1) 1 100).near) 3 = -1 ∧
    (Frustum.new (-1) 3 2 (-1) 1 100).clip (Frustum.new (-1) 3 2 (-1) 1 100).right 7 (-(Frustum.new (-1) 3 2 (-1) 1 100).near) 0 / (Frustum.new (-1) 3 2 (-1) 1 100).clip (Frustum.new (-1) 3 2 (-1) 1 100).right 7 (-(Frustum.new (-1) 3 2 (-1) 1 100).near) 3 = 1 ∧
    (Frustum.new (-1) 3 2 (-1) 1 100).clip 5 (Frustum.new (-1) 3 2 (-1) 1 100).bottom (-(Frustum.new (-1) 3 2 (-1) 1 100).near) 1 / (Frustum.new (-1) 3 2 (-1) 1 100).clip 5 (Frustum.new (-1) 3 2 (-1) 1 100).bottom (-(Frustum.new (-1) 3 2 (-1) 1 100).near) 3 = -1 ∧
    (Frustum.new (-1) 3 2 (-1) 1 100).clip 5 (Frustum.new (-1) 3 2 (-1) 1 100).top (-(Frustum.new (-1) 3 2 (-1) 1 100).near) 1 / (Frustum.new (-1) 3 2 (-1) 1 100).clip 5 (Frustum.new (-1) 3 2 (-1) 1 100).top (-(Frustum.new (-1) 3 2 (-1) 1 100).near) 3 = 1 :=
  ⟨by norm_num [Frustum.new], by norm_num [Frustum.new], by norm_num [Frustum.new],
    C15_near_bounds_to_clip_boundary (Frustum.new (-1) 3 2 (-1) 1 100) 5 7 (by norm_num [Frustum.new])
      (by norm_num [Frustum.new]) (by norm_num [Frustum.new])⟩

/-- Depth of `computeMatrix` for `0 < near < far`: a point at the near distance
has `clip.z / clip.w = +1` and a point at the far distance has
`clip.z / clip.w = -1`. -/
theorem depth_near_far (f : Frustum) (x y : ℚ) (hnear : 0 < f.near) (hfar : f.near < f.far) :
    f.clip x y (-f.near) 2 / f.clip x y (-f.near) 3 = 1 ∧
    f.clip x y (-f.far) 2 / f.clip x y (-f.far) 3 = -1 := by
  have hfn : f.far - f.near ≠ 0 := (sub_pos.mpr hfar).ne'
  have hn : f.near ≠ 0 := hnear.ne'
  have hf : f.far ≠ 0 := (hnear.trans hfar).ne'
  constructor
  · rw [(clip_components f x y (-f.near)).2.2.1, (clip_components f x y (-f.near)).2.2.2]
    field_simp
    ring
  · rw [(clip_components f x y (-f.far)).2.2.1, (clip_components f x y (-f.far)).2.2.2]
    field_simp
    ring

/-- C16 at the bounds `(-1, 1, 1, -1, 1, 100)`, which satisfy `left < right`,
`bottom < top`, `0 < near < far`: the point `(0, 0, -near)` has
`clip.z / clip.w = +1`, not `-1`, and the point `(0, 0, -far)` has
`clip.z / clip.w = -1`, not `+1`. -/
theorem C16_depth_at_unit_frustum :
    (Frustum.new (-1) 1 1 (-1) 1 100).Valid ∧
    (Frustum.new (-1) 1 1 (-1) 1 100).clip 0 0 (-(Frustum.new (-1) 1 1 (-1) 1 100).near) 2 / (Frustum.new (-1) 1 1 (-1) 1 100).clip 0 0 (-(Frustum.new (-1) 1 1 (-1) 1 100).near) 3 = 1 ∧
    (Frustum.new (-1) 1 1 (-1) 1 100).clip 0 0 (-(Frustum.new (-1) 1 1 (-1) 1 100).far) 2 / (Frustum.new (-1) 1 1 (-1) 1 100).clip 0 0 (-(Frustum.new (-1) 1 1 (-1) 1 100).far) 3 = -1 ∧
    (Frustum.new (-1) 1 1 (-1) 1 100).clip 0 0 (-(Frustum.new (-1) 1 1 (-1) 1 100).near) 2 / (Frustum.new (-1) 1 1 (-1) 1 100).clip 0 0 (-(Frustum.new (-1) 1 1 (-1) 1 100).near) 3 ≠ -1 ∧
    (Frustum.new (-1) 1 1 (-1) 1 100).clip 0 0 (-(Frustum.new (-1) 1 1 (-1) 1 100).far) 2 / (Frustum.new (-1) 1 1 (-1) 1 100).clip 0 0 (-(Frustum.new (-1) 1 1 (-1) 1 100).far) 3 ≠ 1 := by
  have h := depth_near_far (Frustum.new (-1) 1 1 (-1) 1 100) 0 0 (by norm_num [Frustum.new]) (by norm_num [Frustum.new])
  refine ⟨by norm_num [Frustum.new, Frustum.Valid], h.1, h.2, ?_, ?_⟩
  · rw [h.1]
    norm_num
  · rw [h.2]
    norm_num

/-! ## `adjustNear`: composition and invariants -/

/-- Rescaling a bound twice about the midpoint, upper bound: the factors
`n1 / k` and `n2 / n1` combine to `n2 / k`. -/
theorem rescale_twice_hi (l r n1 n2 k : ℚ) (hk : k ≠ 0) (hn1 : n1 ≠ 0) :
    ((r + l) * (1 / 2) + (r - l) * ((1 / 2) * n1 / k)
        + ((r + l) * (1 / 2) - (r - l) * ((1 / 2) * n1 / k))) * (1 / 2)
      + ((r + l) * (1 / 2) + (r - l) * ((1 / 2) * n1 / k)
        - ((r + l) * (1 / 2) - (r - l) * ((1 / 2) * n1 / k))) * ((1 / 2) * n2 / n1)
      = (r + l) * (1 / 2) + (r - l) * ((1 / 2) * n2 / k) := by
  have hs : (r + l) * (1 / 2) + (r - l) * ((1 / 2) * n1 / k)
        + ((r + l) * (1 / 2) - (r - l) * ((1 / 2) * n1 / k)) = r + l := by ring
  have hd : (r + l) * (1 / 2) + (r - l) * ((1 / 2) * n1 / k)
        - ((r + l) * (1 / 2) - (r - l) * ((1 / 2) * n1 / k)) = (r - l) * (n1 / k) := by ring
  have hq : n1 / k * ((1 / 2) * n2 / n1) = (1 / 2) * n2 / k := by
    field_simp
    ring
  rw [hs, hd, mul_assoc, hq]

/-- Rescaling a bound twice about the midpoint, lower bound. -/
theorem rescale_twice_lo (l r n1 n2 k : ℚ) (hk : k ≠ 0) (hn1 : n1 ≠ 0) :
    ((r + l) * (1 / 2) + (r - l) * ((1 / 2) * n1 / k)
        + ((r + l) * (1 / 2) - (r - l) * ((1 / 2) * n1 / k))) * (1 / 2)
      - ((r + l) * (1 / 2) + (r - l) * ((1 / 2) * n1 / k)
        - ((r + l) * (1 / 2) - (r - l) * ((1 / 2) * n1 / k))) * ((1 / 2) * n2 / n1)
      = (r + l) * (1 / 2) - (r - l) * ((1 / 2) * n2 / k) := by
  have hs : (r + l) * (1 / 2) + (r - l) * ((1 / 2) * n1 / k)
        + ((r + l) * (1 / 2) - (r - l) * ((1 / 2) * n1 / k)) = r + l := by ring
  have hd : (r + l) * (1 / 2) + (r - l) * ((1 / 2) * n1 / k)
        - ((r + l) * (1 / 2) - (r - l) * ((1 / 2) * n1 / k)) = (r - l) * (n1 / k) := by ring
  have hq : n1 / k * ((1 / 2) * n2 / n1) = (1 / 2) * n2 / k := by
    field_simp
    ring
  rw [hs, hd, mul_assoc, hq]

/-- Rescaling about the midpoint by the factor `k / k` gives the bounds back. -/
theorem rescale_same (l r k : ℚ) (hk : k ≠ 0) :
    (r + l) * (1 / 2) + (r - l) * ((1 / 2) * k / k) = r ∧
    (r + l) * (1 / 2) - (r - l) * ((1 / 2) * k / k) = l := by
  have hq : (1 / 2 : ℚ) * k / k = 1 / 2 := mul_div_cancel_right₀ (1 / 2) hk
  rw [hq]
  constructor <;> ring

/-- Two calls of `adjustNear` in a row amount to the second one alone. -/
theorem adjustNear_adjustNear (f : Frustum) (n1 n2 : ℚ) (hnear : f.near ≠ 0) (hn1 : n1 ≠ 0) :
    (f.adjustNear n1).adjustNear n2 = f.adjustNear n2 := by
  by_cases h1 : n1 = f.near
  · rw [adjustNear_of_eq f n1 h1]
  · rw [adjustNear_of_ne f n1 h1]
    by_cases h2 : n2 = n1
    · rw [adjustNear_of_eq _ n2 h2, h2, adjustNear_of_ne f n1 h1]
    · rw [adjustNear_of_ne _ n2 h2]
      obtain ⟨l, r, t, b, k, g⟩ := f
      dsimp only at hnear h1 ⊢
      rw [rescale_twice_hi l r n1 n2 k hnear hn1, rescale_twice_lo l r n1 n2 k hnear hn1,
        rescale_twice_hi b t n1 n2 k hnear hn1, rescale_twice_lo b t n1 n2 k hnear hn1]
      by_cases h3 : n2 = k
      · rw [adjustNear_of_eq _ n2 h3]
        subst h3
        rw [(rescale_same l r n2 hnear).1, (rescale_same l r n2 hnear).2,
          (rescale_same b t n2 hnear).1, (rescale_same b t n2 hnear).2]
      · rw [adjustNear_of_ne _ n2 h3]

/-- C17: for `near ≠ 0` and `n1 ≠ 0`, `adjustNear(n1)` followed by
`adjustNear(n2)` gives the same frustum as `adjustNear(n2)` alone, and
`adjustNear(n1)` followed by `adjustNear` of the original `near` gives back the
original frustum. -/
theorem C17_adjustNear_composes (f : Frustum) (n1 n2 : ℚ) (hnear : f.near ≠ 0)
    (hn1 : n1 ≠ 0) :
    (f.adjustNear n1).adjustNear n2 = f.adjustNear n2 ∧
    (f.adjustNear n1).adjustNear f.near = f := by
  refine ⟨adjustNear_adjustNear f n1 n2 hnear hn1, ?_⟩
  rw [adjustNear_adjustNear f n1 f.near hnear hn1]
  exact adjustNear_of_eq f f.near rfl

/-- C17 at the bounds `(0, 2, 1, -1, 1, 100)` with `n1 = 2` and `n2 = 5`. -/
theorem C17_adjustNear_composes_witness :
    (Frustum.new 0 2 1 (-1) 1 100).near ≠ 0 ∧ (2 : ℚ) ≠ 0 ∧
    ((Frustum.new 0 2 1 (-1) 1 100).adjustNear 2).adjustNear 5 = (Frustum.new 0 2 1 (-1) 1 100).adjustNear 5 ∧
    ((Frustum.new 0 2 1 (-1) 1 100).adjustNear 2).adjustNear (Frustum.new 0 2 1 (-1) 1 100).near = (Frustum.new 0 2 1 (-1) 1 100) :=
  ⟨by norm_num [Frustum.new], by norm_num,
    C17_adjustNear_composes (Frustum.new 0 2 1 (-1) 1 100) 2 5 (by norm_num [Frustum.new]) (by norm_num)⟩

/-- C18 (amended): in exact arithmetic, for a frustum with `left < right`,
`bottom < top`, `0 < near < far`
and `0 < newNear < far`, the frustum after `adjustNear(newNear)` satisfies
`left < right`, `bottom < top`, `0 < near < far` again. -/
theorem C18_adjustNear_preserves_valid (f : Frustum) (newNear : ℚ) (hv : f.Valid)
    (hpos : 0 < newNear) (hlt : newNear < f.far) :
    (f.adjustNear newNear).Valid := by
  by_cases h : newNear = f.near
  · rw [adjustNear_of_eq f newNear h]
    exact hv
  · obtain ⟨hlr, hbt, hnear, -⟩ := hv
    rw [adjustNear_of_ne f newNear h]
    have hk : 0 < (1 / 2) * newNear / f.near := by positivity
    have hw : 0 < (f.right - f.left) * ((1 / 2) * newNear / f.near) :=
      mul_pos (sub_pos.mpr hlr) hk
    have hh : 0 < (f.top - f.bottom) * ((1 / 2) * newNear / f.near) :=
      mul_pos (sub_pos.mpr hbt) hk
    refine ⟨?_, ?_, hpos, hlt⟩
    · show _ - _ < _ + _
      linarith
    · show _ - _ < _ + _
      linarith

/-- C18 (amended) at the bounds `(0, 2, 1, -1, 1, 100)` with `adjustNear(2)`. -/
theorem C18_adjustNear_preserves_valid_witness :
    (Frustum.new 0 2 1 (-1) 1 100).Valid ∧ (0 : ℚ) < 2 ∧ (2 : ℚ) < (Frustum.new 0 2 1 (-1) 1 100).far ∧ ((Frustum.new 0 2 1 (-1) 1 100).adjustNear 2).Valid :=
  ⟨by norm_num [Frustum.new, Frustum.Valid], by norm_num, by norm_num [Frustum.new],
    C18_adjustNear_preserves_valid (Frustum.new 0 2 1 (-1) 1 100) 2 (by norm_num [Frustum.new, Frustum.Valid])
      (by norm_num) (by norm_num [Frustum.new])⟩

/-! ## The instantiation `Frustum<float>`: NaN, overflow and rounding -/

/-- Every datum other than NaN compares equal to itself. -/
theorem Flt.eq_self (x : Flt) (h : x ≠ Flt.nan) : Flt.eq x x = true := by
  cases x with
  | nan => exact absurd rfl h
  | inf neg => cases neg <;> rfl
  | nzero => rfl
  | fin q => simp [Flt.eq, Flt.toRat]

/-- C4, as stated, fails for a `float` frustum whose `near` is NaN: the guard
`_near == near` is false, and `adjustNear` called with the current `near` of
`(-1, 1, 1, -1, NaN, 100)` overwrites `left`, `right`, `top` and `bottom` with
NaN. -/
theorem C4_nan_near_not_unchanged :
    Frustumf.nanNear.adjustNear Frustumf.nanNear.near
      = Frustumf.new Flt.nan Flt.nan Flt.nan Flt.nan Flt.nan (Flt.fin 100) ∧
    Frustumf.nanNear.adjustNear Frustumf.nanNear.near ≠ Frustumf.nanNear ∧
    (Frustumf.nanNear.adjustNear Frustumf.nanNear.near).left ≠ Frustumf.nanNear.left := by
  decide!

/-- C4 (amended): for every `float` frustum whose `near` is not NaN (also when
it is 0 or infinite), `adjustNear` called with the frustum's current `near`
returns the frustum unchanged, all six fields. -/
theorem C4_adjustNear_same_near (f : Frustumf) (hnan : f.near ≠ Flt.nan) :
    f.adjustNear f.near = f ∧
    (f.adjustNear f.near).left = f.left ∧ (f.adjustNear f.near).right = f.right ∧
    (f.adjustNear f.near).top = f.top ∧ (f.adjustNear f.near).bottom = f.bottom ∧
    (f.adjustNear f.near).near = f.near ∧ (f.adjustNear f.near).far = f.far := by
  have h : f.adjustNear f.near = f := by
    unfold Frustumf.adjustNear
    rw [if_pos (Flt.eq_self f.near hnan)]
  rw [h]
  exact ⟨rfl, rfl, rfl, rfl, rfl, rfl, rfl⟩

/-- C4 (amended) at the bounds `(-1, 1, 1, -1, 0, 100)`, whose `near` is 0. -/
theorem C4_adjustNear_same_near_witness :
    Frustumf.zeroNear.near ≠ Flt.nan ∧
    Frustumf.zeroNear.adjustNear Frustumf.zeroNear.near = Frustumf.zeroNear ∧
    (Frustumf.zeroNear.adjustNear Frustumf.zeroNear.near).left = Frustumf.zeroNear.left ∧ (Frustumf.zeroNear.adjustNear Frustumf.zeroNear.near).right = Frustumf.zeroNear.right ∧
    (Frustumf.zeroNear.adjustNear Frustumf.zeroNear.near).top = Frustumf.zeroNear.top ∧ (Frustumf.zeroNear.adjustNear Frustumf.zeroNear.near).bottom = Frustumf.zeroNear.bottom ∧
    (Frustumf.zeroNear.adjustNear Frustumf.zeroNear.near).near = Frustumf.zeroNear.near ∧ (Frustumf.zeroNear.adjustNear Frustumf.zeroNear.near).far = Frustumf.zeroNear.far :=
  ⟨by decide!, C4_adjustNear_same_near Frustumf.zeroNear (by decide!)⟩

/-- C13, as stated, fails for a `float` frustum built from `double` values:
`16777217` is a `double` but not a `float`, and the constructor stores
`16777216` in `left`. -/
theorem C13_narrowing_rounds :
    Frustumf.fromDoubles (some doubleValues)
      = some (Frustumf.new (Flt.fin 16777216) (Flt.fin 1) (Flt.fin 1) (Flt.fin (-1))
          (Flt.fin 1) (Flt.fin 100)) ∧
    Frustumf.fromDoubles (some doubleValues)
      ≠ some { left := doubleValues 0, right := doubleValues 1, top := doubleValues 2, bottom := doubleValues 3,
               near := doubleValues 4, far := doubleValues 5 } := by
  decide!

/-- C13 (amended): from a six-element array `v` the array-conversion
constructors build the frustum with `left = static_cast<T>(v[0])`, ...,
`far = static_cast<T>(v[5])`: for a `float` frustum the values of a `double`
array rounded to binary32, and the values of a `float` array themselves;
built from the array `data` of a `float` frustum `f`, the `float` overload
gives back `f`. -/
theorem C13_array_constructor_roundtrip :
    (∀ v : Fin 6 → Flt,
      Frustumf.fromDoubles (some v)
        = some { left := Flt.ofDouble (v 0), right := Flt.ofDouble (v 1),
                 top := Flt.ofDouble (v 2), bottom := Flt.ofDouble (v 3),
                 near := Flt.ofDouble (v 4), far := Flt.ofDouble (v 5) } ∧
      Frustumf.fromFloats (some v)
        = some { left := v 0, right := v 1, top := v 2, bottom := v 3,
                 near := v 4, far := v 5 }) ∧
    (∀ f : Frustumf, Frustumf.fromFloats (some f.data) = some f) :=
  ⟨fun _ => ⟨rfl, rfl⟩, fun _ => rfl⟩

/-- C15, as stated, fails for the `float` frustum
`(-2^127, 2^127, 1, -1, 1, 3)`, which has `left != right`, `top != bottom` and
`near != 0`: `right - left` overflows, `m00 = m02 = 0`, and the product of the
matrix with `(x, y, -near, 1)` has `clip.x / clip.w = 0` at `x = left` and at
`x = right`. -/
theorem C15_overflow_clip_zero :
    Frustumf.wide.isBinary32 = true ∧
    Flt.eq Frustumf.wide.left Frustumf.wide.right = false ∧ Flt.eq Frustumf.wide.top Frustumf.wide.bottom = false ∧
    Flt.eq Frustumf.wide.near (Flt.fin 0) = false ∧
    Frustumf.wide.computeMatrix.exact = some Matrix4.wideMatrix ∧
    Matrix4.wideMatrix.mulVec ![Frustumf.wide.left.toRat, 0, -Frustumf.wide.near.toRat, 1] 0
        / Matrix4.wideMatrix.mulVec ![Frustumf.wide.left.toRat, 0, -Frustumf.wide.near.toRat, 1] 3 = 0 ∧
    Matrix4.wideMatrix.mulVec ![Frustumf.wide.right.toRat, 0, -Frustumf.wide.near.toRat, 1] 0
        / Matrix4.wideMatrix.mulVec ![Frustumf.wide.right.toRat, 0, -Frustumf.wide.near.toRat, 1] 3 = 0 ∧
    Matrix4.wideMatrix.mulVec ![Frustumf.wide.left.toRat, 0, -Frustumf.wide.near.toRat, 1] 0
        / Matrix4.wideMatrix.mulVec ![Frustumf.wide.left.toRat, 0, -Frustumf.wide.near.toRat, 1] 3 ≠ -1 := by
  refine ⟨by decide!, by decide!, by decide!, by decide!, by decide!, ?_, ?_, ?_⟩ <;>
    simp [Matrix4.mulVec, Matrix4.toMatrix, Matrix4.wideMatrix, Matrix.mulVec,
      Matrix.dotProduct, Fin.sum_univ_four]

/-- C18, as stated, fails for the `float` frustum
`(2^127, 1.5 * 2^127, 1, -1, 1, 100)`: its members are binary32 values and
satisfy the invariants, and `0 < 2 < far`, but in `adjustNear(2)` the sum
`right + left` overflows, `hMiddle` is `+inf`, and `left = right = +inf`
afterwards, so `left < right` no longer holds. -/
theorem C18_overflow_invalid :
    Frustumf.huge.isBinary32 = true ∧ Frustumf.huge.Valid ∧
    Flt.lt (Flt.fin 0) (Flt.fin 2) = true ∧ Flt.lt (Flt.fin 2) Frustumf.huge.far = true ∧
    Frustumf.huge.adjustNear (Flt.fin 2)
      = Frustumf.new (Flt.inf false) (Flt.inf false) (Flt.fin 2) (Flt.fin (-2))
          (Flt.fin 2) (Flt.fin 100) ∧
    ¬ (Frustumf.huge.adjustNear (Flt.fin 2)).Valid := by
  decide!

end vmml
